import Mathlib

/-!
Shallow embedding of the crefy-connect wallet/balance backend.

The embedding translates, definition by definition, the TypeScript of
  - `src/services/balance-service.ts` (`BalanceService` and `WalletService`), and
  - the Stellar fetcher (`StellarServices`),
into Lean.  External collaborators (the viem / stellar-sdk cryptographic
primitives, chain RPC endpoints, the friendbot faucet) are modelled as
explicit parameters so that the control flow of the repository's own code
is what the theorems talk about.
-/

namespace Crefy

/-- `BlockchainNetwork` enum from `balance-service.ts`. -/
inductive BlockchainNetwork where
  | evm
  | stellar
  | solana
deriving DecidableEq, Repr

/-- `WalletInfo` interface from `balance-service.ts`.  Optional TS fields
(`mnemonic?`, `secret?`) become `Option String`. -/
structure WalletInfo where
  address : String
  privateKey : String
  mnemonic : Option String
  publicKey : String
  network : BlockchainNetwork
  secret : Option String
deriving DecidableEq, Repr

/-! ### Address validation (`validateWalletAddress` and helpers) -/

/-- A hexadecimal digit as matched by the character class `[a-fA-F0-9]`. -/
def isHexDigitChar (c : Char) : Bool :=
  ('a' ≤ c && c ≤ 'f') || ('A' ≤ c && c ≤ 'F') || ('0' ≤ c && c ≤ '9')

/-- An uppercase-alphanumeric character as matched by `[A-Z0-9]`. -/
def isUpperAlnumChar (c : Char) : Bool :=
  ('A' ≤ c && c ≤ 'Z') || ('0' ≤ c && c ≤ '9')

/-- `validateEVMAddress`: the regex test `/^0x[a-fA-F0-9]{40}$/.test(address)`. -/
def validateEVMAddress (address : String) : Bool :=
  match address.data with
  | '0' :: 'x' :: rest => rest.length == 40 && rest.all isHexDigitChar
  | _ => false

/-- `validateStellarAddress`: the regex test `/^G[A-Z0-9]{55}$/.test(address)`. -/
def validateStellarAddress (address : String) : Bool :=
  match address.data with
  | 'G' :: rest => rest.length == 55 && rest.all isUpperAlnumChar
  | _ => false

/-- `validateWalletAddress(address, network)` from `balance-service.ts`:
dispatches on the network family, any other family returns `false`. -/
def validateWalletAddress (address : String) (network : BlockchainNetwork) : Bool :=
  match network with
  | .evm => validateEVMAddress address
  | .stellar => validateStellarAddress address
  | .solana => false

/-! ### Wallet generation (`WalletService`)

The viem / stellar-sdk primitives are external collaborators; they are
modelled as record fields so the theorems quantify over their behaviour.
Randomness (`generateMnemonic()`, `Keypair.random()`) is modelled by passing
the freshly drawn value as an explicit argument. -/

/-- The account object returned by viem's `mnemonicToAccount` /
`privateKeyToAccount`.  `hdPrivateKey` is `account.getHdKey().privateKey`,
which may be absent (`null`). -/
structure EvmAccount where
  address : String
  publicKey : String
  hdPrivateKey : Option (List Nat)
deriving DecidableEq, Repr

/-- The viem primitives used by `WalletService`, as abstract operations. -/
structure EvmOps where
  mnemonicToAccount : String → Except String EvmAccount
  privateKeyToAccount : String → Except String EvmAccount
  toHex : List Nat → String

/-- A stellar-sdk `Keypair`: `publicKey()` and `secret()` views. -/
structure StellarKeypair where
  pub : String
  sec : String
deriving DecidableEq, Repr

/-- The stellar-sdk / node-crypto primitives used by `WalletService`. -/
structure StellarOps where
  fromSecret : String → Except String StellarKeypair
  fromRawEd25519Seed : List Nat → Except String StellarKeypair
  sha256 : String → List Nat

/-- `extractPrivateKey(account)`: reads `account.getHdKey().privateKey`,
failing when it is absent, and hex-encodes it. -/
def extractPrivateKey (ops : EvmOps) (account : EvmAccount) : Except String String :=
  match account.hdPrivateKey with
  | none => .error "Failed to extract private key from mnemonic"
  | some bytes => .ok (ops.toHex bytes)

/-- JS `String.prototype.toLowerCase()` restricted to what addresses use:
character-wise lower-casing. -/
def jsToLowerCase (s : String) : String :=
  ⟨s.data.map Char.toLower⟩

/-- `validateEVMWalletConsistency(mnemonicAccount, privateKey)`: re-derives an
account from the raw private key and compares lower-cased addresses. -/
def validateEVMWalletConsistency (ops : EvmOps) (mnemonicAccount : EvmAccount)
    (privateKey : String) : Except String Unit :=
  match ops.privateKeyToAccount privateKey with
  | .error e => .error e
  | .ok privateKeyAccount =>
    if jsToLowerCase mnemonicAccount.address ≠ jsToLowerCase privateKeyAccount.address then
      .error "Address mismatch between mnemonic and private key derivation"
    else
      .ok ()

/-- `mnemonic || this.generateMnemonic()`: JS `||` takes the right operand
when the supplied mnemonic is absent (`undefined`) or the empty string. -/
def walletMnemonicOf (freshMnemonic : String) (mnemonic : Option String) : String :=
  if mnemonic.getD "" = "" then freshMnemonic else mnemonic.getD ""

/-- Body of `generateEVMWallet` before its catch-all wrapper. -/
def generateEVMWalletCore (ops : EvmOps) (freshMnemonic : String)
    (mnemonic : Option String) : Except String WalletInfo :=
  match ops.mnemonicToAccount (walletMnemonicOf freshMnemonic mnemonic) with
  | .error e => .error e
  | .ok account =>
    match extractPrivateKey ops account with
    | .error e => .error e
    | .ok privateKey =>
      match validateEVMWalletConsistency ops account privateKey with
      | .error e => .error e
      | .ok _ =>
        .ok { address := account.address
              privateKey := privateKey
              mnemonic := some (walletMnemonicOf freshMnemonic mnemonic)
              publicKey := account.publicKey
              network := .evm
              secret := none }

/-- `generateEVMWallet(mnemonic?)`: the try/catch wraps every failure message
with `EVM wallet generation failed: `. -/
def generateEVMWallet (ops : EvmOps) (freshMnemonic : String)
    (mnemonic : Option String) : Except String WalletInfo :=
  match generateEVMWalletCore ops freshMnemonic mnemonic with
  | .ok w => .ok w
  | .error e => .error ("EVM wallet generation failed: " ++ e)

/-- `deriveStellarKeypairFromMnemonic(mnemonic)`: sha256 the mnemonic, keep
32 bytes, build the keypair from the raw seed; failures are re-wrapped. -/
def deriveStellarKeypairFromMnemonic (ops : StellarOps) (mnemonic : String) :
    Except String StellarKeypair :=
  match ops.fromRawEd25519Seed ((ops.sha256 mnemonic).take 32) with
  | .ok kp => .ok kp
  | .error e => .error ("Failed to derive Stellar keypair from mnemonic: " ++ e)

/-- The keypair `generateStellarWallet` ends up using: derived from the
mnemonic when one is supplied (JS truthiness: non-empty), otherwise the
freshly drawn `Keypair.random()`. -/
def usedStellarKeypair (ops : StellarOps) (randomKeypair : StellarKeypair)
    (mnemonic : Option String) : Except String StellarKeypair :=
  if mnemonic.getD "" ≠ "" then
    deriveStellarKeypairFromMnemonic ops (mnemonic.getD "")
  else
    .ok randomKeypair

/-- `generateStellarWallet(mnemonic?)`: keypair as in `usedStellarKeypair`;
the wallet mirrors the keypair (`secret` aliases `privateKey`), and the
`mnemonic` field is `mnemonic || ''`.  The try/catch wraps failures with
`Stellar wallet generation failed: `. -/
def generateStellarWallet (ops : StellarOps) (randomKeypair : StellarKeypair)
    (mnemonic : Option String) : Except String WalletInfo :=
  match usedStellarKeypair ops randomKeypair mnemonic with
  | .error e => .error ("Stellar wallet generation failed: " ++ e)
  | .ok keypair =>
    .ok { address := keypair.pub
          privateKey := keypair.sec
          publicKey := keypair.pub
          mnemonic := some (mnemonic.getD "")
          network := .stellar
          secret := some keypair.sec }

/-- External collaborators of `WalletService`, bundled, together with the
freshly drawn randomness for one generation call. -/
structure WalletOps where
  evm : EvmOps
  stellar : StellarOps
  freshMnemonic : String
  randomKeypair : StellarKeypair

/-- `generateWallet(network, options?)`: dispatch on the network family.
`handleGenerationError` returns `WalletServiceError`s unchanged, so the
dispatcher adds no wrapping of its own. -/
def generateWallet (ops : WalletOps) (network : BlockchainNetwork)
    (mnemonic : Option String) : Except String WalletInfo :=
  match network with
  | .evm => generateEVMWallet ops.evm ops.freshMnemonic mnemonic
  | .stellar => generateStellarWallet ops.stellar ops.randomKeypair mnemonic
  | .solana => .error "Unsupported network: solana"

/-- `recoverStellarWalletFromMnemonic(mnemonic)`. -/
def recoverStellarWalletFromMnemonic (ops : StellarOps) (mnemonic : String) :
    Except String WalletInfo :=
  match deriveStellarKeypairFromMnemonic ops mnemonic with
  | .error e => .error e
  | .ok keypair =>
    .ok { address := keypair.pub
          privateKey := keypair.sec
          publicKey := keypair.pub
          mnemonic := some mnemonic
          network := .stellar
          secret := some keypair.sec }

/-- `importStellarWalletFromSecret(secret)`: wraps the existing secret;
`privateKey` and `secret` are the input string itself. -/
def importStellarWalletFromSecret (ops : StellarOps) (secret : String) :
    Except String WalletInfo :=
  match ops.fromSecret secret with
  | .error e => .error e
  | .ok keypair =>
    .ok { address := keypair.pub
          privateKey := secret
          publicKey := keypair.pub
          mnemonic := none
          network := .stellar
          secret := some secret }

/-- `importEVMWalletFromPrivateKey(privateKey)`. -/
def importEVMWalletFromPrivateKey (ops : EvmOps) (privateKey : String) :
    Except String WalletInfo :=
  match ops.privateKeyToAccount privateKey with
  | .error e => .error e
  | .ok account =>
    .ok { address := account.address
          privateKey := privateKey
          mnemonic := none
          publicKey := account.publicKey
          network := .evm
          secret := none }

/-- The catch-all wrapper the dispatcher methods put around failures. -/
def wrapWalletError (prefixMsg : String) :
    Except String WalletInfo → Except String WalletInfo
  | .ok w => .ok w
  | .error e => .error (prefixMsg ++ e)

/-- `importWalletFromPrivateKey(privateKey, network)`: dispatch; the outer
try/catch wraps every failure with `Wallet import failed: `. -/
def importWalletFromPrivateKey (ops : WalletOps) (privateKey : String)
    (network : BlockchainNetwork) : Except String WalletInfo :=
  wrapWalletError "Wallet import failed: "
    (match network with
     | .evm => importEVMWalletFromPrivateKey ops.evm privateKey
     | .stellar => importStellarWalletFromSecret ops.stellar privateKey
     | .solana => .error "Unsupported network for import: solana")

/-- `recoverWalletFromMnemonic(mnemonic, network)`: dispatch; the outer
try/catch wraps every failure with `Wallet recovery failed: `. -/
def recoverWalletFromMnemonic (ops : WalletOps) (mnemonic : String)
    (network : BlockchainNetwork) : Except String WalletInfo :=
  wrapWalletError "Wallet recovery failed: "
    (match network with
     | .evm =>
       match ops.evm.mnemonicToAccount mnemonic with
       | .error e => .error e
       | .ok account =>
         match extractPrivateKey ops.evm account with
         | .error e => .error e
         | .ok privateKey =>
           .ok { address := account.address
                 privateKey := privateKey
                 mnemonic := some mnemonic
                 publicKey := account.publicKey
                 network := .evm
                 secret := none }
     | .stellar => recoverStellarWalletFromMnemonic ops.stellar mnemonic
     | .solana => .error "Unsupported network for recovery: solana")

/-- `generateMultipleWallets` loop: index `i` counts generated wallets,
`n` is how many remain; a failed generation aborts with the 1-based index. -/
def genLoop (gen : Nat → Except String WalletInfo) :
    Nat → Nat → Except String (List WalletInfo)
  | _, 0 => .ok []
  | i, n + 1 =>
    match gen i with
    | .error _ => .error ("Failed to generate wallet " ++ toString (i + 1))
    | .ok w =>
      match genLoop gen (i + 1) n with
      | .error e => .error e
      | .ok ws => .ok (w :: ws)

/-- `generateMultipleWallets(count, network)`: bounds checks, then the
sequential loop.  `gen i` is the outcome of the `i`-th `generateWallet`
call (each call draws fresh randomness). -/
def generateMultipleWallets (gen : Nat → Except String WalletInfo)
    (count : Int) : Except String (List WalletInfo) :=
  if count ≤ 0 then .error "Count must be greater than 0"
  else if count > 100 then .error "Cannot generate more than 100 wallets at once"
  else genLoop gen 0 count.toNat

/-- C7: `validateWalletAddress` on the EVM family accepts exactly the strings
`0x` followed by exactly 40 hexadecimal characters, and on the Stellar family
exactly the strings `G` followed by exactly 55 uppercase-alphanumeric
characters; everything else (wrong length, prefix or character set) is
rejected. -/
theorem validateWalletAddress_characterization (s : String) :
    (validateWalletAddress s .evm = true ↔
      ∃ t : List Char, s.data = '0' :: 'x' :: t ∧ t.length = 40 ∧
        ∀ c ∈ t, ('a' ≤ c ∧ c ≤ 'f') ∨ ('A' ≤ c ∧ c ≤ 'F') ∨ ('0' ≤ c ∧ c ≤ '9')) ∧
    (validateWalletAddress s .stellar = true ↔
      ∃ t : List Char, s.data = 'G' :: t ∧ t.length = 55 ∧
        ∀ c ∈ t, ('A' ≤ c ∧ c ≤ 'Z') ∨ ('0' ≤ c ∧ c ≤ '9')) := by
  constructor
  · show validateEVMAddress s = true ↔ _
    unfold validateEVMAddress
    split
    · rename_i rest h
      simp [h, List.all_eq_true, isHexDigitChar, or_assoc]
    · rename_i h
      constructor
      · intro hfalse; cases hfalse
      · rintro ⟨t, ht, -, -⟩
        exact absurd ht (fun hx => h t hx)
  · show validateStellarAddress s = true ↔ _
    unfold validateStellarAddress
    split
    · rename_i rest h
      simp [h, List.all_eq_true, isUpperAlnumChar]
    · rename_i h
      constructor
      · intro hfalse; cases hfalse
      · rintro ⟨t, ht, -, -⟩
        exact absurd ht (fun hx => h t hx)

/-- C4: every EVM wallet returned by `generateEVMWallet` (with or without a
supplied mnemonic) satisfies the cross-check — the account re-derived from
the returned raw private key has the same address, case-insensitively, as the
mnemonic-derived one; and when the two derivations disagree, generation fails
with the address-mismatch (`InconsistentDerivation`) error instead of
returning a wallet. -/
theorem generateEVMWallet_consistency :
    (∀ (ops : EvmOps) (freshMnemonic : String) (mnemonic : Option String) (w : WalletInfo),
      generateEVMWallet ops freshMnemonic mnemonic = .ok w →
      ∃ a, ops.privateKeyToAccount w.privateKey = .ok a ∧
        jsToLowerCase a.address = jsToLowerCase w.address) ∧
    (∀ (ops : EvmOps) (freshMnemonic : String) (mnemonic : Option String)
        (account a : EvmAccount) (privateKey : String),
      ops.mnemonicToAccount (walletMnemonicOf freshMnemonic mnemonic) = .ok account →
      extractPrivateKey ops account = .ok privateKey →
      ops.privateKeyToAccount privateKey = .ok a →
      jsToLowerCase account.address ≠ jsToLowerCase a.address →
      generateEVMWallet ops freshMnemonic mnemonic =
        .error "EVM wallet generation failed: Address mismatch between mnemonic and private key derivation") := by
  constructor
  · intro ops fm m w h
    unfold generateEVMWallet at h
    split at h
    · rename_i w' hcore
      injection h with h
      subst h
      unfold generateEVMWalletCore at hcore
      split at hcore
      · cases hcore
      · rename_i account hacc
        split at hcore
        · cases hcore
        · rename_i pk hext
          split at hcore
          · cases hcore
          · rename_i u hval
            injection hcore with hcore
            subst hcore
            unfold validateEVMWalletConsistency at hval
            split at hval
            · cases hval
            · rename_i pka hpka
              split at hval
              · cases hval
              · rename_i hne
                exact ⟨pka, hpka, ((not_ne_iff.mp hne).symm : _)⟩
    · cases h
  · intro ops fm m account a pk hacc hext hpka hne
    simp only [generateEVMWallet, generateEVMWalletCore, validateEVMWalletConsistency,
      hacc, hext, hpka]
    simp [hne]

/-- Concrete viem stand-in whose two derivations agree up to case. -/
def evmOpsW : EvmOps :=
  { mnemonicToAccount := fun _ => .ok ⟨"0xAB", "pub", some [1]⟩
    privateKeyToAccount := fun _ => .ok ⟨"0xab", "pub2", none⟩
    toHex := fun _ => "0x01" }

/-- Concrete viem stand-in whose two derivations disagree. -/
def evmOpsBadW : EvmOps :=
  { mnemonicToAccount := fun _ => .ok ⟨"0xAB", "pub", some [1]⟩
    privateKeyToAccount := fun _ => .ok ⟨"0xCD", "pub2", none⟩
    toHex := fun _ => "0x01" }

theorem generateEVMWallet_consistency_witness :
    (∃ a, evmOpsW.privateKeyToAccount "0x01" = .ok a ∧
      jsToLowerCase a.address = jsToLowerCase "0xAB") ∧
    generateEVMWallet evmOpsBadW "seed" none =
      .error "EVM wallet generation failed: Address mismatch between mnemonic and private key derivation" := by
  constructor
  · exact generateEVMWallet_consistency.1 evmOpsW "seed" none
      ⟨"0xAB", "0x01", some "seed", "pub", .evm, none⟩ rfl
  · exact generateEVMWallet_consistency.2 evmOpsBadW "seed" none
      ⟨"0xAB", "pub", some [1]⟩ ⟨"0xCD", "pub2", none⟩ "0x01"
      rfl rfl rfl (by decide)

/-- C9: every Stellar `WalletInfo` produced by `generateWallet`,
`recoverWalletFromMnemonic` or `importWalletFromPrivateKey` on the Stellar
family carries `secret` present and equal to `privateKey`, and `publicKey`
equal to `address`; moreover `generateWallet` without a supplied mnemonic
sets the `mnemonic` field to the empty string rather than leaving it
absent. -/
theorem stellar_walletInfo_invariant :
    (∀ (ops : WalletOps) (m : Option String) (w : WalletInfo),
      generateWallet ops .stellar m = .ok w →
      w.secret = some w.privateKey ∧ w.publicKey = w.address ∧
        (m = none → w.mnemonic = some "")) ∧
    (∀ (ops : WalletOps) (m : String) (w : WalletInfo),
      recoverWalletFromMnemonic ops m .stellar = .ok w →
      w.secret = some w.privateKey ∧ w.publicKey = w.address) ∧
    (∀ (ops : WalletOps) (s : String) (w : WalletInfo),
      importWalletFromPrivateKey ops s .stellar = .ok w →
      w.secret = some w.privateKey ∧ w.publicKey = w.address) := by
  refine ⟨?_, ?_, ?_⟩
  · intro ops m w h
    simp only [generateWallet, generateStellarWallet] at h
    split at h
    · cases h
    · rename_i kp hkp
      injection h with h
      subst h
      exact ⟨rfl, rfl, fun hm => by subst hm; rfl⟩
  · intro ops m w h
    simp only [recoverWalletFromMnemonic] at h
    unfold wrapWalletError at h
    split at h
    · rename_i w' hd
      injection h with h
      subst h
      simp only [recoverStellarWalletFromMnemonic] at hd
      split at hd
      · cases hd
      · rename_i kp hkp
        injection hd with hd
        subst hd
        exact ⟨rfl, rfl⟩
    · cases h
  · intro ops s w h
    simp only [importWalletFromPrivateKey] at h
    unfold wrapWalletError at h
    split at h
    · rename_i w' hd
      injection h with h
      subst h
      simp only [importStellarWalletFromSecret] at hd
      split at hd
      · cases hd
      · rename_i kp hkp
        injection hd with hd
        subst hd
        exact ⟨rfl, rfl⟩
    · cases h

/-- Concrete stellar-sdk stand-in: the public key is `G` ++ secret. -/
def stellarOpsW : StellarOps :=
  { fromSecret := fun s => .ok ⟨"G" ++ s, s⟩
    fromRawEd25519Seed := fun _ => .ok ⟨"GDER", "DER"⟩
    sha256 := fun _ => [] }

/-- Concrete collaborator bundle for the wallet-service witnesses. -/
def walletOpsW : WalletOps :=
  { evm := evmOpsW
    stellar := stellarOpsW
    freshMnemonic := "seed"
    randomKeypair := ⟨"GSEC", "SEC"⟩ }

/-- Wallet produced by `generateWallet walletOpsW .stellar none`. -/
def wGenW : WalletInfo := ⟨"GSEC", "SEC", some "", "GSEC", .stellar, some "SEC"⟩

/-- Wallet produced by `recoverWalletFromMnemonic walletOpsW "mn" .stellar`. -/
def wRecW : WalletInfo := ⟨"GDER", "DER", some "mn", "GDER", .stellar, some "DER"⟩

/-- Wallet produced by `importWalletFromPrivateKey walletOpsW "SEC" .stellar`. -/
def wImpW : WalletInfo := ⟨"GSEC", "SEC", none, "GSEC", .stellar, some "SEC"⟩

theorem stellar_walletInfo_invariant_witness :
    (wGenW.secret = some wGenW.privateKey ∧ wGenW.publicKey = wGenW.address ∧
      ((none : Option String) = none → wGenW.mnemonic = some "")) ∧
    (wRecW.secret = some wRecW.privateKey ∧ wRecW.publicKey = wRecW.address) ∧
    (wImpW.secret = some wImpW.privateKey ∧ wImpW.publicKey = wImpW.address) :=
  ⟨stellar_walletInfo_invariant.1 walletOpsW none wGenW rfl,
   stellar_walletInfo_invariant.2.1 walletOpsW "mn" wRecW rfl,
   stellar_walletInfo_invariant.2.2 walletOpsW "SEC" wImpW rfl⟩

/-- C8: round-trip — importing the secret of a Stellar wallet produced by
`generateWallet` (on the Stellar family) recovers a wallet with the same
address, given that the SDK's `Keypair.fromSecret` recovers the keypair the
generation step used. -/
theorem stellar_import_roundtrip (ops : WalletOps) (m : Option String)
    (w : WalletInfo) (s : String)
    (hgen : generateWallet ops .stellar m = .ok w)
    (hsec : w.secret = some s)
    (hsdk : ∀ kp, usedStellarKeypair ops.stellar ops.randomKeypair m = .ok kp →
      ops.stellar.fromSecret kp.sec = .ok kp) :
    ∃ w', importWalletFromPrivateKey ops s .stellar = .ok w' ∧
      w'.address = w.address := by
  simp only [generateWallet, generateStellarWallet] at hgen
  split at hgen
  · cases hgen
  · rename_i kp hkp
    injection hgen with hgen
    subst hgen
    simp only [WalletInfo.secret, Option.some.injEq] at hsec
    subst hsec
    have hfs := hsdk kp hkp
    simp [importWalletFromPrivateKey, wrapWalletError, importStellarWalletFromSecret, hfs]

theorem stellar_import_roundtrip_witness :
    ∃ w', importWalletFromPrivateKey walletOpsW "SEC" .stellar = .ok w' ∧
      w'.address = wGenW.address :=
  stellar_import_roundtrip walletOpsW none wGenW "SEC" rfl rfl
    (fun kp h => by
      simp only [usedStellarKeypair] at h
      simp at h
      subst h
      rfl)

/-- A successful `Except` (in the Boolean sense) is an `ok`. -/
theorem except_isOk_exists {e a : Type} {x : Except e a} (h : x.isOk = true) :
    ∃ b, x = .ok b := by
  cases x with
  | error err => simp [Except.isOk, Except.toBool] at h
  | ok b => exact ⟨b, rfl⟩

/-- When every remaining generation succeeds, `genLoop` returns them all in
order. -/
theorem genLoop_ok (gen : Nat → Except String WalletInfo) :
    ∀ (n i : Nat), (∀ j, j < n → (gen (i + j)).isOk = true) →
    ∃ ws, genLoop gen i n = .ok ws ∧ ws.length = n ∧
      ∀ k (hk : k < ws.length), gen (i + k) = .ok (ws.get ⟨k, hk⟩) := by
  intro n
  induction n with
  | zero =>
    intro i _
    exact ⟨[], rfl, rfl, fun k hk => absurd hk (by simp)⟩
  | succ n ih =>
    intro i h
    have h0 : (gen i).isOk = true := by simpa using h 0 (Nat.succ_pos n)
    obtain ⟨w, hw⟩ := except_isOk_exists h0
    obtain ⟨ws, hws, hlen, hidx⟩ := ih (i + 1) (fun j hj => by
      have := h (j + 1) (by omega)
      rwa [show i + (j + 1) = i + 1 + j by omega] at this)
    refine ⟨w :: ws, ?_, by simp [hlen], ?_⟩
    · simp [genLoop, hw, hws]
    · intro k hk
      cases k with
      | zero => simpa using hw
      | succ k =>
        have := hidx k (by simpa using hk)
        rw [show i + (k + 1) = i + 1 + k by omega]
        simpa using this

/-- The first failed generation aborts the loop with its 1-based index. -/
theorem genLoop_err (gen : Nat → Except String WalletInfo) :
    ∀ (n i k : Nat) (e : String), k < n →
    (∀ j, j < k → (gen (i + j)).isOk = true) →
    gen (i + k) = .error e →
    genLoop gen i n = .error ("Failed to generate wallet " ++ toString (i + k + 1)) := by
  intro n
  induction n with
  | zero => intro i k e hk; omega
  | succ n ih =>
    intro i k e hk hall hfail
    cases k with
    | zero =>
      simp only [Nat.add_zero] at hfail
      simp [genLoop, hfail]
    | succ k =>
      have h0 : (gen i).isOk = true := by simpa using hall 0 (Nat.succ_pos k)
      obtain ⟨w, hw⟩ := except_isOk_exists h0
      have hrec := ih (i + 1) k e (by omega)
        (fun j hj => by
          have := hall (j + 1) (by omega)
          rwa [show i + (j + 1) = i + 1 + j by omega] at this)
        (by rwa [show i + 1 + k = i + (k + 1) by omega])
      rw [show i + 1 + k + 1 = i + (k + 1) + 1 by omega] at hrec
      simp [genLoop, hw, hrec]

/-- C6: `generateMultipleWallets` fails fast with the count-bounds
(`InvalidCount`) errors when `count ≤ 0` or `count > 100`, for every
generator alike (so no wallet is generated); otherwise it runs sequentially:
if every constituent generation succeeds it returns exactly `count` wallets
in generation order, and if some generation fails the whole batch fails with
the `BatchGenerationFailed` message naming the failed (1-based) index, so no
partial list is ever returned. -/
theorem generateMultipleWallets_spec :
    (∀ (gen : Nat → Except String WalletInfo) (count : Int), count ≤ 0 →
      generateMultipleWallets gen count = .error "Count must be greater than 0") ∧
    (∀ (gen : Nat → Except String WalletInfo) (count : Int), 100 < count →
      generateMultipleWallets gen count =
        .error "Cannot generate more than 100 wallets at once") ∧
    (∀ (gen : Nat → Except String WalletInfo) (count : Int),
      0 < count → count ≤ 100 →
      (∀ i, i < count.toNat → (gen i).isOk = true) →
      ∃ ws, generateMultipleWallets gen count = .ok ws ∧
        ws.length = count.toNat ∧
        ∀ k (hk : k < ws.length), gen k = .ok (ws.get ⟨k, hk⟩)) ∧
    (∀ (gen : Nat → Except String WalletInfo) (count : Int) (k : Nat) (e : String),
      0 < count → count ≤ 100 →
      k < count.toNat →
      (∀ j, j < k → (gen j).isOk = true) →
      gen k = .error e →
      generateMultipleWallets gen count =
        .error ("Failed to generate wallet " ++ toString (k + 1))) := by
  refine ⟨?_, ?_, ?_, ?_⟩
  · intro gen count hc
    simp [generateMultipleWallets, hc]
  · intro gen count hc
    have h1 : ¬ count ≤ 0 := by omega
    simp [generateMultipleWallets, h1, hc]
  · intro gen count hpos hle hall
    have h1 : ¬ count ≤ 0 := by omega
    have h2 : ¬ 100 < count := by omega
    obtain ⟨ws, hws, hlen, hidx⟩ := genLoop_ok gen count.toNat 0
      (fun j hj => by simpa using hall j hj)
    refine ⟨ws, ?_, hlen, fun k hk => by simpa using hidx k hk⟩
    simp [generateMultipleWallets, h1, h2, hws]
  · intro gen count k e hpos hle hk hall hfail
    have h1 : ¬ count ≤ 0 := by omega
    have h2 : ¬ 100 < count := by omega
    have := genLoop_err gen count.toNat 0 k e hk
      (fun j hj => by simpa using hall j hj) (by simpa using hfail)
    simpa [generateMultipleWallets, h1, h2] using this

/-- A generator that succeeds at index 0 and fails from index 1 on. -/
def genFailW : Nat → Except String WalletInfo :=
  fun i => if i = 0 then .ok wGenW else .error "boom"

theorem generateMultipleWallets_spec_witness :
    generateMultipleWallets (fun _ => .ok wGenW) 0 =
      .error "Count must be greater than 0" ∧
    generateMultipleWallets (fun _ => .ok wGenW) 101 =
      .error "Cannot generate more than 100 wallets at once" ∧
    (∃ ws, generateMultipleWallets (fun _ => .ok wGenW) 2 = .ok ws ∧
      ws.length = (2 : Int).toNat ∧
      ∀ k (hk : k < ws.length),
        (fun _ => .ok wGenW : Nat → Except String WalletInfo) k = .ok (ws.get ⟨k, hk⟩)) ∧
    generateMultipleWallets genFailW 2 = .error "Failed to generate wallet 2" := by
  refine ⟨?_, ?_, ?_, ?_⟩
  · exact generateMultipleWallets_spec.1 (fun _ => .ok wGenW) 0 (by decide)
  · exact generateMultipleWallets_spec.2.1 (fun _ => .ok wGenW) 101 (by decide)
  · exact generateMultipleWallets_spec.2.2.1 (fun _ => .ok wGenW) 2 (by decide) (by decide)
      (fun i _ => rfl)
  · exact generateMultipleWallets_spec.2.2.2 genFailW 2 1 "boom" (by decide) (by decide)
      (by decide) (fun j hj => by interval_cases j; rfl) rfl

/-! ### EVM balance aggregation (`BalanceService`)

The chain registry (`config/chains`, a static table keyed by chain id) and
the per-chain RPC endpoints are external inputs here; `BalanceService`'s own
control flow — client lookup, per-chain fetch, catch-and-continue — is
translated directly. -/

/-- `chain.nativeCurrency` of a registry entry. -/
structure NativeCurrency where
  name : String
  symbol : String
  decimals : Nat
deriving DecidableEq, Repr

/-- One `ChainConfig` of the registry table. -/
structure ChainConfig where
  id : Nat
  name : String
  nativeCurrency : NativeCurrency
deriving DecidableEq, Repr

/-- What `getBalance` returns. -/
structure BalanceResult where
  balance : String
  formatted : String
  chainId : Nat
  currency : String
  decimals : Nat
deriving DecidableEq, Repr

/-- What `getBalances` (and the Stellar fetcher) return per line:
`BalanceResult` plus `chainName`. -/
structure BalanceEntry where
  balance : String
  formatted : String
  chainId : Nat
  currency : String
  decimals : Nat
  chainName : String
deriving DecidableEq, Repr

/-- A `BalanceService` instance and its collaborators: the registry the
clients were built from, the RPC balance query (wei result or failure), and
viem's `formatUnits`. -/
structure EvmBalanceEnv where
  registry : List ChainConfig
  rpcBalance : String → Nat → Except String Nat
  formatUnits : Nat → Nat → String

/-- The key set of the `publicClients` map built in `createPublicClients`:
one client per chain id, keyed in first-insertion order. -/
def clientKeys (registry : List ChainConfig) : List Nat :=
  registry.foldl (fun ks c => if c.id ∈ ks then ks else ks ++ [c.id]) []

/-- `getChainConfig(chainId)`: registry lookup. -/
def getChainConfig (registry : List ChainConfig) (chainId : Nat) : Option ChainConfig :=
  registry.find? (fun c => c.id == chainId)

/-- `getBalance(address, chainId)`: fails when no client / no config exists
for the chain, otherwise queries the RPC and formats, wrapping RPC failures. -/
def getBalance (env : EvmBalanceEnv) (address : String) (chainId : Nat) :
    Except String BalanceResult :=
  if chainId ∉ clientKeys env.registry then
    .error ("Chain with ID " ++ toString chainId ++ " is not supported")
  else
    match getChainConfig env.registry chainId with
    | none => .error ("Chain configuration not found for chain ID " ++ toString chainId)
    | some chainConfig =>
      match env.rpcBalance address chainId with
      | .error e =>
        .error ("Failed to get balance for address " ++ address ++ " on chain " ++
          toString chainId ++ ": " ++ e)
      | .ok balance =>
        .ok { balance := toString balance
              formatted := env.formatUnits balance chainConfig.nativeCurrency.decimals
              chainId := chainId
              currency := chainConfig.nativeCurrency.symbol
              decimals := chainConfig.nativeCurrency.decimals }

/-- One iteration of the `getBalances` loop: `try { push(...) } catch { continue }`. -/
def fetchChainEntry (env : EvmBalanceEnv) (address : String) (chainId : Nat) :
    Option BalanceEntry :=
  match getBalance env address chainId with
  | .error _ => none
  | .ok b =>
    some { balance := b.balance
           formatted := b.formatted
           chainId := b.chainId
           currency := b.currency
           decimals := b.decimals
           chainName := ((getChainConfig env.registry chainId).map (·.name)).getD "Unknown Chain" }

/-- `getBalances(address, chainIds?)`: `chainIds || Array.from(keys)` — JS `||`
only falls back when the argument is absent (an empty array is truthy);
then the sequential catch-and-continue loop. -/
def getBalances (env : EvmBalanceEnv) (address : String)
    (chainIds : Option (List Nat)) : List BalanceEntry :=
  let chainsToCheck :=
    match chainIds with
    | some l => l
    | none => clientKeys env.registry
  chainsToCheck.filterMap (fetchChainEntry env address)

/-- `getBalance` stamps the queried chain id on its result. -/
theorem getBalance_chainId {env : EvmBalanceEnv} {address : String}
    {chainId : Nat} {b : BalanceResult}
    (h : getBalance env address chainId = .ok b) : b.chainId = chainId := by
  unfold getBalance at h
  split at h
  · cases h
  · split at h
    · cases h
    · split at h
      · cases h
      · injection h with h
        subst h
        rfl

/-- The chain ids of the aggregate result are exactly the successfully
fetched ids of the requested list, in requested order. -/
theorem getBalances_chainIds (env : EvmBalanceEnv) (address : String)
    (l : List Nat) :
    (getBalances env address (some l)).map (·.chainId) =
      l.filter (fun cid => (getBalance env address cid).isOk) := by
  induction l with
  | nil => rfl
  | cons cid l ih =>
    simp only [getBalances, List.filterMap_cons] at ih ⊢
    cases hgb : getBalance env address cid with
    | error e =>
      simp [fetchChainEntry, hgb, List.filter_cons, Except.isOk, Except.toBool, ih]
    | ok b =>
      have hid : b.chainId = cid := getBalance_chainId hgb
      simp [fetchChainEntry, hgb, List.filter_cons, Except.isOk, Except.toBool, ih, hid]

/-- A chain id without a registered client fails with the unsupported-chain
error. -/
theorem getBalance_unsupported {env : EvmBalanceEnv} {address : String}
    {chainId : Nat} (h : chainId ∉ clientKeys env.registry) :
    getBalance env address chainId =
      .error ("Chain with ID " ++ toString chainId ++ " is not supported") := by
  simp [getBalance, h]

/-- C2: `getBalances` returns exactly the subsequence, in the caller's
requested order (registry iteration order when no list is given), of those
chains whose individual fetch succeeded; a failed chain — in particular an
unregistered chain id — is silently omitted, and the aggregate call itself
never fails (it is total and merely drops failed constituents). -/
theorem getBalances_partial_failure_policy :
    (∀ (env : EvmBalanceEnv) (address : String) (l : List Nat),
      (getBalances env address (some l)).map (·.chainId) =
        l.filter (fun cid => (getBalance env address cid).isOk)) ∧
    (∀ (env : EvmBalanceEnv) (address : String),
      getBalances env address none =
        getBalances env address (some (clientKeys env.registry))) ∧
    (∀ (env : EvmBalanceEnv) (address : String) (chainId : Nat),
      chainId ∉ clientKeys env.registry →
      getBalance env address chainId =
        .error ("Chain with ID " ++ toString chainId ++ " is not supported")) :=
  ⟨getBalances_chainIds, fun _ _ => rfl, fun _ _ _ h => getBalance_unsupported h⟩

/-- The spec's scenario registry: chain 8453 (Base) only. -/
def evmEnvW : EvmBalanceEnv :=
  { registry := [{ id := 8453, name := "Base", nativeCurrency := ⟨"Ether", "ETH", 18⟩ }]
    rpcBalance := fun _ _ => .ok 5
    formatUnits := fun _ _ => "0.000000000000000005" }

theorem getBalances_partial_failure_policy_witness :
    (getBalances evmEnvW "0xabc" (some [8453, 999999])).map (·.chainId) =
      [8453, 999999].filter (fun cid => (getBalance evmEnvW "0xabc" cid).isOk) ∧
    getBalance evmEnvW "0xabc" 999999 =
      .error ("Chain with ID " ++ toString 999999 ++ " is not supported") :=
  ⟨getBalances_partial_failure_policy.1 evmEnvW "0xabc" [8453, 999999],
   getBalances_partial_failure_policy.2.2 evmEnvW "0xabc" 999999 (by decide)⟩

/-- C10: an explicitly empty chain-id list yields the empty result; the
default of querying every registry-known chain applies only when the list
argument is absent. -/
theorem getBalances_empty_list :
    (∀ (env : EvmBalanceEnv) (address : String),
      getBalances env address (some []) = []) ∧
    (∀ (env : EvmBalanceEnv) (address : String),
      (getBalances env address none).map (·.chainId) =
        (clientKeys env.registry).filter
          (fun cid => (getBalance env address cid).isOk)) :=
  ⟨fun _ _ => rfl, fun env address => getBalances_chainIds env address _⟩

/-! ### Stellar fetcher (`StellarServices`)

Horizon (`server.loadAccount`) and the friendbot faucet are external HTTP
collaborators, modelled as oracles indexed by the position of the network in
the session's variant list and by the attempt number (first load vs. the
post-funding retry).  The observable protocol — load attempts, faucet call,
settle delay — is recorded as an event trace. -/

/-- One balance line of a Horizon account record. -/
structure HorizonBalanceLine where
  balance : String
  asset_type : String
  asset_code : String
deriving DecidableEq, Repr

/-- The error thrown by `server.loadAccount`: optional HTTP response status
plus message. -/
structure LoadError where
  status : Option Nat
  message : String
deriving DecidableEq, Repr

/-- `error.response?.status === 404 || error.message.includes('Not Found')`. -/
def isNotFoundError (e : LoadError) : Bool :=
  e.status == some 404 || decide ("Not Found".data <:+: e.message.data)

/-- A `NetworkConfig` of the session: synthetic chain id, display name and
the Horizon endpoint the `server` handle was built from. -/
structure NetworkConfig where
  chainId : Nat
  chainName : String
  server : String
deriving DecidableEq, Repr

/-- The `stellar_horizon_rpc` table. -/
def stellar_horizon_rpc (network : String) : Option String :=
  if network = "testnet" then some "https://horizon-testnet.stellar.org/"
  else if network = "futurenet" then some "https://horizon-futurenet.stellar.org"
  else if network = "mainnet" then some "https://horizon.stellar.org/"
  else none

/-- `getChainId(network)`: the synthetic chain-id table with its `|| 999`
fallback. -/
def getChainId (network : String) : Nat :=
  if network = "mainnet" then 1
  else if network = "testnet" then 2
  else if network = "futurenet" then 3
  else 999

/-- `network.charAt(0).toUpperCase() + network.slice(1)`. -/
def jsCapitalize (s : String) : String :=
  match s.data with
  | [] => ""
  | c :: cs => ⟨c.toUpper :: cs⟩

/-- The constructor's `networksToUse.map(...)`: resolves each variant name,
throwing at the first unsupported one. -/
def buildNetworks : List String → Except String (List NetworkConfig)
  | [] => .ok []
  | network :: rest =>
    match stellar_horizon_rpc network with
    | none => .error ("Unsupported network: " ++ network)
    | some rpcUrl =>
      match buildNetworks rest with
      | .error e => .error e
      | .ok cfgs =>
        .ok ({ chainId := getChainId network
               chainName := "Stellar " ++ jsCapitalize network
               server := rpcUrl } :: cfgs)

/-- The `StellarServices` constructor: `Keypair.fromSecret`, then the default
`["testnet"]` for an absent variant list, then network resolution.  A
successful construction is the session state (keypair and fixed variants). -/
def mkStellarServices (ops : StellarOps) (privateKey : String)
    (requestedNetworks : Option (List String)) :
    Except String (StellarKeypair × List NetworkConfig) :=
  match ops.fromSecret privateKey with
  | .error e => .error e
  | .ok keypair =>
    match buildNetworks (requestedNetworks.getD ["testnet"]) with
    | .error e => .error e
    | .ok networks => .ok (keypair, networks)

/-- The Horizon / friendbot collaborators of one `getBalancesForAllNetworks`
run: `load idx attempt` is the outcome of the load of network number `idx`
(attempt 1 = first try, 2 = post-funding retry); `friendbotOk idx` is whether
the faucet HTTP call for that network succeeds; `toFixed7` is JS
`parseFloat(s).toFixed(7)`. -/
structure StellarFetchEnv where
  load : Nat → Nat → Except LoadError (List HorizonBalanceLine)
  friendbotOk : Nat → Bool
  toFixed7 : String → String

/-- Observable protocol events of a run. -/
inductive StellarEvent where
  | loadAttempt (idx attempt : Nat)
  | friendbotCall (idx : Nat)
  | settleDelayMs (idx ms : Nat)
deriving DecidableEq, Repr

/-- `fundWithFriendbot`: the faucet HTTP call; on success it waits 3000 ms
and reports `true`; every failure is caught and reported as `false`. -/
def fundWithFriendbot (env : StellarFetchEnv) (idx : Nat) :
    Bool × List StellarEvent :=
  if env.friendbotOk idx then
    (true, [.friendbotCall idx, .settleDelayMs idx 3000])
  else
    (false, [.friendbotCall idx])

/-- The `BalanceEntry` pushed for one Horizon balance line. -/
def mkLineEntry (env : StellarFetchEnv) (cfg : NetworkConfig)
    (line : HorizonBalanceLine) : BalanceEntry :=
  { balance := line.balance
    formatted := env.toFixed7 line.balance
    chainId := cfg.chainId
    currency := if line.asset_type = "native" then "XLM" else line.asset_code
    decimals := 7
    chainName := cfg.chainName }

/-- One iteration of the `for (const network of this.networks)` loop:
load; on success push every line; on not-found-on-testnet fund and (when
funded) retry — the retry is NOT guarded by a try/catch, so its error
escapes; on any other failure push the placeholder entry. -/
def processNetwork (env : StellarFetchEnv) (idx : Nat) (cfg : NetworkConfig) :
    Except LoadError (List BalanceEntry) × List StellarEvent :=
  match env.load idx 1 with
  | .ok account =>
    (.ok (account.map (mkLineEntry env cfg)), [.loadAttempt idx 1])
  | .error e =>
    if isNotFoundError e && cfg.chainId == 2 then
      if (fundWithFriendbot env idx).1 then
        match env.load idx 2 with
        | .ok account =>
          (.ok (account.map (mkLineEntry env cfg)),
            .loadAttempt idx 1 :: (fundWithFriendbot env idx).2 ++ [.loadAttempt idx 2])
        | .error e2 =>
          (.error e2, .loadAttempt idx 1 :: (fundWithFriendbot env idx).2 ++ [.loadAttempt idx 2])
      else
        (.ok [], .loadAttempt idx 1 :: (fundWithFriendbot env idx).2)
    else
      (.ok [{ balance := "0"
              formatted := "0.0000000"
              chainId := cfg.chainId
              currency := "XLM"
              decimals := 7
              chainName := cfg.chainName }], [.loadAttempt idx 1])

/-- The whole loop: entries accumulate across networks; an uncaught error
(only possible from the retry) rejects the whole call, discarding
`allBalances`. -/
def runNetworks (env : StellarFetchEnv) :
    Nat → List NetworkConfig → Except LoadError (List BalanceEntry) × List StellarEvent
  | _, [] => (.ok [], [])
  | idx, cfg :: rest =>
    match processNetwork env idx cfg with
    | (.error e, tr) => (.error e, tr)
    | (.ok entries, tr) =>
      match runNetworks env (idx + 1) rest with
      | (.error e, tr2) => (.error e, tr ++ tr2)
      | (.ok more, tr2) => (.ok (entries ++ more), tr ++ tr2)

/-- `getBalancesForAllNetworks()` of a session with the given variant list. -/
def getBalancesForAllNetworks (env : StellarFetchEnv)
    (networks : List NetworkConfig) :
    Except LoadError (List BalanceEntry) × List StellarEvent :=
  runNetworks env 0 networks

/-- Network resolution fails at the first unsupported name with its
`Unsupported network` message. -/
theorem buildNetworks_err :
    ∀ (pre : List String) (n : String) (post : List String),
      (∀ m ∈ pre, (stellar_horizon_rpc m).isSome = true) →
      stellar_horizon_rpc n = none →
      buildNetworks (pre ++ n :: post) = .error ("Unsupported network: " ++ n) := by
  intro pre
  induction pre with
  | nil =>
    intro n post _ hn
    simp [buildNetworks, hn]
  | cons m pre ih =>
    intro n post hpre hn
    have hm : (stellar_horizon_rpc m).isSome = true := hpre m (by simp)
    obtain ⟨u, hu⟩ := Option.isSome_iff_exists.mp hm
    have hrec := ih n post (fun x hx => hpre x (by simp [hx])) hn
    simp [buildNetworks, hu, hrec]

/-- Successful network resolution maps each name to its synthetic chain id. -/
theorem buildNetworks_chainIds :
    ∀ (names : List String) (cfgs : List NetworkConfig),
      buildNetworks names = .ok cfgs →
      cfgs.map (·.chainId) = names.map getChainId := by
  intro names
  induction names with
  | nil =>
    intro cfgs h
    injection h with h
    subst h
    rfl
  | cons n rest ih =>
    intro cfgs h
    unfold buildNetworks at h
    split at h
    · cases h
    · rename_i url hurl
      split at h
      · cases h
      · rename_i cfgs' hrest
        injection h with h
        subst h
        simp [ih cfgs' hrest]

/-- C5: construction with no variant list defaults to `["testnet"]` (and, on
a valid secret, yields the testnet session with synthetic chain id 2); each
successfully resolved variant list maps names to synthetic chain ids with
mainnet=1, testnet=2, futurenet=3; the recognized names are exactly those
three; and any list containing an unrecognized name fails construction with
the `UnsupportedNetwork` error (no session is produced). -/
theorem mkStellarServices_spec :
    (∀ (ops : StellarOps) (pk : String),
      mkStellarServices ops pk none = mkStellarServices ops pk (some ["testnet"])) ∧
    (∀ (ops : StellarOps) (pk : String) (kp : StellarKeypair),
      ops.fromSecret pk = .ok kp →
      mkStellarServices ops pk none =
        .ok (kp, [{ chainId := 2, chainName := "Stellar Testnet",
                    server := "https://horizon-testnet.stellar.org/" }])) ∧
    (∀ (names : List String) (cfgs : List NetworkConfig),
      buildNetworks names = .ok cfgs →
      cfgs.map (·.chainId) = names.map getChainId) ∧
    (getChainId "mainnet" = 1 ∧ getChainId "testnet" = 2 ∧
      getChainId "futurenet" = 3) ∧
    (∀ n : String, (stellar_horizon_rpc n).isSome = true ↔
      (n = "mainnet" ∨ n = "testnet" ∨ n = "futurenet")) ∧
    (∀ (ops : StellarOps) (pk : String) (pre : List String) (n : String)
        (post : List String),
      (∀ m ∈ pre, (stellar_horizon_rpc m).isSome = true) →
      stellar_horizon_rpc n = none →
      mkStellarServices ops pk (some (pre ++ n :: post)) =
        (match ops.fromSecret pk with
         | .error e => .error e
         | .ok _ => .error ("Unsupported network: " ++ n))) := by
  refine ⟨fun _ _ => rfl, ?_, buildNetworks_chainIds, ⟨by decide, by decide, by decide⟩, ?_, ?_⟩
  · intro ops pk kp h
    simp [mkStellarServices, h]
    rfl
  · intro n
    unfold stellar_horizon_rpc
    split_ifs with h1 h2 h3
    · simp [h1]
    · simp [h2]
    · simp [h3]
    · simp [h1, h2, h3]
  · intro ops pk pre n post hpre hn
    have hb := buildNetworks_err pre n post hpre hn
    cases hfs : ops.fromSecret pk with
    | error e => simp [mkStellarServices, hfs]
    | ok kp => simp [mkStellarServices, hfs, hb]

theorem mkStellarServices_spec_witness :
    mkStellarServices stellarOpsW "SEC" none =
      .ok (⟨"GSEC", "SEC"⟩,
        [{ chainId := 2, chainName := "Stellar Testnet",
           server := "https://horizon-testnet.stellar.org/" }]) ∧
    mkStellarServices stellarOpsW "SEC" (some ["mainnet", "bogus", "testnet"]) =
      (match stellarOpsW.fromSecret "SEC" with
       | .error e => .error e
       | .ok _ => .error ("Unsupported network: " ++ "bogus")) :=
  ⟨mkStellarServices_spec.2.1 stellarOpsW "SEC" ⟨"GSEC", "SEC"⟩ rfl,
   mkStellarServices_spec.2.2.2.2.2 stellarOpsW "SEC" ["mainnet"] "bogus" ["testnet"]
     (by decide) (by decide)⟩

/-- Every entry one network iteration pushes is stamped with that network's
chain id. -/
theorem processNetwork_chainIds {env : StellarFetchEnv} {idx : Nat}
    {cfg : NetworkConfig} {es : List BalanceEntry} {tr : List StellarEvent}
    (h : processNetwork env idx cfg = (.ok es, tr)) :
    ∀ b ∈ es, b.chainId = cfg.chainId := by
  unfold processNetwork at h
  split at h
  · injection h with h1 h2
    injection h1 with h1
    subst h1
    intro b hb
    obtain ⟨line, -, rfl⟩ := List.mem_map.mp hb
    rfl
  · split at h
    · split at h
      · split at h
        · injection h with h1 h2
          injection h1 with h1
          subst h1
          intro b hb
          obtain ⟨line, -, rfl⟩ := List.mem_map.mp hb
          rfl
        · injection h with h1 h2
          cases h1
      · injection h with h1 h2
        injection h1 with h1
        subst h1
        intro b hb
        cases hb
    · injection h with h1 h2
      injection h1 with h1
      subst h1
      intro b hb
      rw [List.mem_singleton] at hb
      subst hb
      rfl

/-- Every entry of a completed run belongs to one of the session's
networks. -/
theorem runNetworks_chainIds (env : StellarFetchEnv) :
    ∀ (networks : List NetworkConfig) (i : Nat) (L : List BalanceEntry)
      (tr : List StellarEvent),
      runNetworks env i networks = (.ok L, tr) →
      ∀ b ∈ L, ∃ cfg ∈ networks, b.chainId = cfg.chainId := by
  intro networks
  induction networks with
  | nil =>
    intro i L tr h
    injection h with h1 h2
    injection h1 with h1
    subst h1
    intro b hb
    cases hb
  | cons cfg rest ih =>
    intro i L tr h
    unfold runNetworks at h
    split at h
    · injection h with h1 h2
      cases h1
    · rename_i entries tr1 hproc
      split at h
      · injection h with h1 h2
        cases h1
      · rename_i more tr2 hrec
        injection h with h1 h2
        injection h1 with h1
        subst h1
        intro b hb
        rcases List.mem_append.mp hb with hb | hb
        · exact ⟨cfg, by simp, processNetwork_chainIds hproc b hb⟩
        · obtain ⟨c, hc, hbc⟩ := ih (i + 1) more tr2 hrec b hb
          exact ⟨c, by simp [hc], hbc⟩

/-- A first-load failure that is not the testnet-not-found combination
yields exactly the placeholder entry for that network. -/
theorem processNetwork_placeholder {env : StellarFetchEnv} {idx : Nat}
    {cfg : NetworkConfig} {e : LoadError}
    (hload : env.load idx 1 = .error e)
    (hcond : (isNotFoundError e && cfg.chainId == 2) = false) :
    processNetwork env idx cfg =
      (.ok [{ balance := "0", formatted := "0.0000000", chainId := cfg.chainId,
              currency := "XLM", decimals := 7, chainName := cfg.chainName }],
       [.loadAttempt idx 1]) := by
  unfold processNetwork
  rw [hload]
  simp [hcond]

/-- In a completed run whose network chain ids are distinct, a network whose
first load failed with anything but the testnet-not-found combination is
represented in the result by exactly its placeholder entry. -/
theorem runNetworks_placeholder_filter (env : StellarFetchEnv) :
    ∀ (networks : List NetworkConfig) (i k : Nat) (cfg : NetworkConfig)
      (e : LoadError) (L : List BalanceEntry) (tr : List StellarEvent),
      networks.get? k = some cfg →
      env.load (i + k) 1 = .error e →
      ¬(isNotFoundError e = true ∧ cfg.chainId = 2) →
      (networks.map (·.chainId)).Nodup →
      runNetworks env i networks = (.ok L, tr) →
      L.filter (fun b => b.chainId == cfg.chainId) =
        [{ balance := "0", formatted := "0.0000000", chainId := cfg.chainId,
           currency := "XLM", decimals := 7, chainName := cfg.chainName }] := by
  intro networks
  induction networks with
  | nil =>
    intro i k cfg e L tr hget
    cases hget
  | cons c rest ih =>
    intro i k cfg e L tr hget hload hcond hnodup hrun
    unfold runNetworks at hrun
    split at hrun
    · injection hrun with h1 h2
      cases h1
    · rename_i entries tr1 hproc
      split at hrun
      · injection hrun with h1 h2
        cases h1
      · rename_i more tr2 hrec
        injection hrun with h1 h2
        injection h1 with h1
        subst h1
        simp only [List.map_cons, List.nodup_cons] at hnodup
        cases k with
        | zero =>
          injection hget with hget
          subst hget
          rw [Nat.add_zero] at hload
          have hcondb : (isNotFoundError e && c.chainId == 2) = false := by
            rcases Bool.eq_false_or_eq_true (isNotFoundError e) with hnf | hnf
            · have hne2 : c.chainId ≠ 2 := fun hc2 => hcond ⟨hnf, hc2⟩
              simp [hne2]
            · simp [hnf]
          have hentries : entries =
              [{ balance := "0", formatted := "0.0000000", chainId := c.chainId,
                 currency := "XLM", decimals := 7, chainName := c.chainName }] := by
            rw [processNetwork_placeholder hload hcondb] at hproc
            injection hproc with h1 h2
            injection h1 with h1
            exact h1.symm
          have hmore : more.filter (fun b => b.chainId == c.chainId) = [] := by
            rw [List.filter_eq_nil_iff]
            intro b hb
            obtain ⟨c2, hc2, hbc2⟩ := runNetworks_chainIds env rest (i + 1) more tr2 hrec b hb
            have hne : c2.chainId ≠ c.chainId := by
              intro hceq
              exact hnodup.1 (by
                rw [← hceq]
                exact List.mem_map.mpr ⟨c2, hc2, rfl⟩)
            simp [hbc2, hne]
          rw [hentries]
          simp [List.filter_append, hmore]
        | succ k =>
          have hget2 : rest.get? k = some cfg := hget
          have hcfg_mem : cfg ∈ rest := List.get?_mem hget2
          have hcne : c.chainId ≠ cfg.chainId := by
            intro hceq
            exact hnodup.1 (by
              rw [hceq]
              exact List.mem_map.mpr ⟨cfg, hcfg_mem, rfl⟩)
          have hentriesnil : entries.filter (fun b => b.chainId == cfg.chainId) = [] := by
            rw [List.filter_eq_nil_iff]
            intro b hb
            have hbc := processNetwork_chainIds hproc b hb
            simp [hbc, hcne]
          have hmore := ih (i + 1) k cfg e more tr2 hget2
            (by rwa [show i + 1 + k = i + (k + 1) by omega]) hcond hnodup.2 hrec
          rw [List.filter_append, hentriesnil, hmore]
          rfl

/-- C3: for a Stellar network variant whose account load fails other than in
the testnet-not-found case (any failure on mainnet/futurenet — including
"account not found" — or a non-not-found failure on testnet), the run emits
exactly one placeholder entry with balance "0", formatted "0.0000000", the
variant's synthetic chain id and display name, currency "XLM" and decimals 7:
stated per-iteration, and for a completed `getBalancesForAllNetworks` run
over variants with distinct chain ids. -/
theorem stellar_placeholder_on_failure :
    (∀ (env : StellarFetchEnv) (idx : Nat) (cfg : NetworkConfig) (e : LoadError),
      env.load idx 1 = .error e →
      ¬(isNotFoundError e = true ∧ cfg.chainId = 2) →
      processNetwork env idx cfg =
        (.ok [{ balance := "0", formatted := "0.0000000", chainId := cfg.chainId,
                currency := "XLM", decimals := 7, chainName := cfg.chainName }],
         [.loadAttempt idx 1])) ∧
    (∀ (env : StellarFetchEnv) (networks : List NetworkConfig) (k : Nat)
        (cfg : NetworkConfig) (e : LoadError) (L : List BalanceEntry)
        (tr : List StellarEvent),
      networks.get? k = some cfg →
      env.load k 1 = .error e →
      ¬(isNotFoundError e = true ∧ cfg.chainId = 2) →
      (networks.map (·.chainId)).Nodup →
      getBalancesForAllNetworks env networks = (.ok L, tr) →
      L.filter (fun b => b.chainId == cfg.chainId) =
        [{ balance := "0", formatted := "0.0000000", chainId := cfg.chainId,
           currency := "XLM", decimals := 7, chainName := cfg.chainName }]) := by
  constructor
  · intro env idx cfg e hload hcond
    apply processNetwork_placeholder hload
    rcases Bool.eq_false_or_eq_true (isNotFoundError e) with hnf | hnf
    · have hne2 : cfg.chainId ≠ 2 := fun hc2 => hcond ⟨hnf, hc2⟩
      simp [hne2]
    · simp [hnf]
  · intro env networks k cfg e L tr hget hload hcond hnodup hrun
    exact runNetworks_placeholder_filter env networks 0 k cfg e L tr hget
      (by simpa using hload) hcond hnodup hrun

/-- The testnet variant of the witness sessions. -/
def testnetCfgW : NetworkConfig :=
  ⟨2, "Stellar Testnet", "https://horizon-testnet.stellar.org/"⟩

/-- The mainnet variant of the witness sessions. -/
def mainnetCfgW : NetworkConfig :=
  ⟨1, "Stellar Mainnet", "https://horizon.stellar.org/"⟩

/-- Horizon oracle: network 0 is absent (404 on every attempt), any other
network holds one native line; the faucet call succeeds. -/
def stellarEnvC1 : StellarFetchEnv :=
  { load := fun idx _ =>
      if idx = 0 then .error ⟨some 404, "Not Found"⟩
      else .ok [⟨"10.5", "native", ""⟩]
    friendbotOk := fun _ => true
    toFixed7 := fun _ => "10.5000000" }

theorem stellar_placeholder_on_failure_witness :
    processNetwork stellarEnvC1 0 mainnetCfgW =
      (.ok [{ balance := "0", formatted := "0.0000000", chainId := 1,
              currency := "XLM", decimals := 7, chainName := "Stellar Mainnet" }],
       [.loadAttempt 0 1]) ∧
    [({ balance := "0", formatted := "0.0000000", chainId := 1,
        currency := "XLM", decimals := 7, chainName := "Stellar Mainnet" } : BalanceEntry),
     { balance := "10.5", formatted := "10.5000000", chainId := 2,
       currency := "XLM", decimals := 7, chainName := "Stellar Testnet" }].filter
        (fun b => b.chainId == mainnetCfgW.chainId) =
      [{ balance := "0", formatted := "0.0000000", chainId := mainnetCfgW.chainId,
         currency := "XLM", decimals := 7, chainName := mainnetCfgW.chainName }] :=
  ⟨stellar_placeholder_on_failure.1 stellarEnvC1 0 mainnetCfgW ⟨some 404, "Not Found"⟩
     rfl (by decide),
   stellar_placeholder_on_failure.2 stellarEnvC1 [mainnetCfgW, testnetCfgW] 0
     mainnetCfgW ⟨some 404, "Not Found"⟩ _ _ rfl rfl (by decide) (by decide) rfl⟩

/-- C1 counterexample: with the testnet account absent, the faucet call
succeeding and the post-funding retry failing again, the whole
`getBalancesForAllNetworks` call rejects with the retry's error — the
mainnet variant of the same session is never queried and contributes
nothing, even though querying it alone succeeds.  (The retry on line 122 of
the Stellar service is not guarded by a try/catch.) -/
theorem getBalancesForAllNetworks_retry_abort :
    getBalancesForAllNetworks stellarEnvC1 [testnetCfgW, mainnetCfgW] =
      (.error ⟨some 404, "Not Found"⟩,
       [.loadAttempt 0 1, .friendbotCall 0, .settleDelayMs 0 3000,
        .loadAttempt 0 2]) ∧
    processNetwork stellarEnvC1 1 mainnetCfgW =
      (.ok [{ balance := "10.5", formatted := "10.5000000", chainId := 1,
              currency := "XLM", decimals := 7, chainName := "Stellar Mainnet" }],
       [.loadAttempt 1 1]) :=
  ⟨rfl, rfl⟩

/-- C1 (amended): on testnet-not-found the faucet is invoked exactly once;
when funding succeeds the run waits the one 3000 ms settle delay and retries
the load exactly once, the variant contributing the retry's outcome — in
particular a failed retry's error escapes, and (third conjunct) an escaped
error rejects the whole call, dropping every variant's entries and skipping
the remaining variants; when funding fails there is no delay and no retry
and the variant contributes zero entries, and (fourth conjunct) a variant
that completes without an escaped error never aborts the rest of the run. -/
theorem stellar_testnet_faucet_retry :
    (∀ (env : StellarFetchEnv) (idx : Nat) (cfg : NetworkConfig) (e : LoadError),
      cfg.chainId = 2 →
      env.load idx 1 = .error e →
      isNotFoundError e = true →
      env.friendbotOk idx = true →
      processNetwork env idx cfg =
        ((env.load idx 2).map (List.map (mkLineEntry env cfg)),
         [.loadAttempt idx 1, .friendbotCall idx, .settleDelayMs idx 3000,
          .loadAttempt idx 2])) ∧
    (∀ (env : StellarFetchEnv) (idx : Nat) (cfg : NetworkConfig) (e : LoadError),
      cfg.chainId = 2 →
      env.load idx 1 = .error e →
      isNotFoundError e = true →
      env.friendbotOk idx = false →
      processNetwork env idx cfg =
        (.ok [], [.loadAttempt idx 1, .friendbotCall idx])) ∧
    (∀ (env : StellarFetchEnv) (i : Nat) (cfg : NetworkConfig)
        (rest : List NetworkConfig) (e2 : LoadError) (tr : List StellarEvent),
      processNetwork env i cfg = (.error e2, tr) →
      runNetworks env i (cfg :: rest) = (.error e2, tr)) ∧
    (∀ (env : StellarFetchEnv) (i : Nat) (cfg : NetworkConfig)
        (rest : List NetworkConfig) (es : List BalanceEntry)
        (tr : List StellarEvent),
      processNetwork env i cfg = (.ok es, tr) →
      runNetworks env i (cfg :: rest) =
        ((runNetworks env (i + 1) rest).1.map (fun more => es ++ more),
         tr ++ (runNetworks env (i + 1) rest).2)) := by
  refine ⟨?_, ?_, ?_, ?_⟩
  · intro env idx cfg e hcid hload hnf hfb
    unfold processNetwork
    rw [hload]
    cases h2 : env.load idx 2 with
    | ok account => simp [hnf, hcid, fundWithFriendbot, hfb, h2, Except.map]
    | error e2 => simp [hnf, hcid, fundWithFriendbot, hfb, h2, Except.map]
  · intro env idx cfg e hcid hload hnf hfb
    unfold processNetwork
    rw [hload]
    simp [hnf, hcid, fundWithFriendbot, hfb]
  · intro env i cfg rest e2 tr hproc
    unfold runNetworks
    rw [hproc]
  · intro env i cfg rest es tr hproc
    rcases hr : runNetworks env (i + 1) rest with ⟨r, tr2⟩
    simp only [runNetworks]
    rw [hproc, hr]
    cases r with
    | error e => simp [Except.map]
    | ok more => simp [Except.map]

/-- Horizon oracle whose account is absent and whose faucet call fails. -/
def stellarEnvFBFail : StellarFetchEnv :=
  { load := fun _ _ => .error ⟨some 404, "Not Found"⟩
    friendbotOk := fun _ => false
    toFixed7 := fun s => s }

theorem stellar_testnet_faucet_retry_witness :
    processNetwork stellarEnvC1 0 testnetCfgW =
      ((stellarEnvC1.load 0 2).map (List.map (mkLineEntry stellarEnvC1 testnetCfgW)),
       [.loadAttempt 0 1, .friendbotCall 0, .settleDelayMs 0 3000,
        .loadAttempt 0 2]) ∧
    processNetwork stellarEnvFBFail 0 testnetCfgW =
      (.ok [], [.loadAttempt 0 1, .friendbotCall 0]) ∧
    runNetworks stellarEnvC1 0 (testnetCfgW :: [mainnetCfgW]) =
      (.error ⟨some 404, "Not Found"⟩,
       [.loadAttempt 0 1, .friendbotCall 0, .settleDelayMs 0 3000,
        .loadAttempt 0 2]) ∧
    runNetworks stellarEnvC1 1 (mainnetCfgW :: []) =
      ((runNetworks stellarEnvC1 2 []).1.map
         (fun more =>
           [{ balance := "10.5", formatted := "10.5000000", chainId := 1,
              currency := "XLM", decimals := 7,
              chainName := "Stellar Mainnet" }] ++ more),
       [.loadAttempt 1 1] ++ (runNetworks stellarEnvC1 2 []).2) :=
  ⟨stellar_testnet_faucet_retry.1 stellarEnvC1 0 testnetCfgW
     ⟨some 404, "Not Found"⟩ rfl rfl (by decide) rfl,
   stellar_testnet_faucet_retry.2.1 stellarEnvFBFail 0 testnetCfgW
     ⟨some 404, "Not Found"⟩ rfl rfl (by decide) rfl,
   stellar_testnet_faucet_retry.2.2.1 stellarEnvC1 0 testnetCfgW [mainnetCfgW]
     ⟨some 404, "Not Found"⟩ _ rfl,
   stellar_testnet_faucet_retry.2.2.2 stellarEnvC1 1 mainnetCfgW []
     [{ balance := "10.5", formatted := "10.5000000", chainId := 1,
        currency := "XLM", decimals := 7, chainName := "Stellar Mainnet" }]
     [.loadAttempt 1 1] rfl⟩

end Crefy
